import Mathlib

/-
Formal model of the `quaternion-demo` repository.

The repository has one source file, `src/main.rs`. It declares a module
`mod quaternion;` whose file `src/quaternion.rs` is not part of the sources
available here, so the quaternion math core (identity, Hamilton product,
construction from Euler angles and from axis-angle, slerp) is modelled from
the specification; each such definition carries a doc comment starting with
"Modelled from the spec:".  The animation-sequencer state machine, the UI
operations on the rotation list and the per-frame rotation computation are
embedded directly from `src/main.rs` (lines 127-136 for the state, 214-333
for the UI event handlers and 344-365 for the per-frame draw block).

Floating-point numbers (`f32` in the Rust source) are modelled as real
numbers; machine indices (`usize`) as naturals.
-/

namespace QDemo

open Real

/-- Modelled from the spec: a quaternion is four real components (w, x, y, z)
representing a rotation in 3D space (spec section 3). The concrete
`Quaternion` type lives in the missing `src/quaternion.rs`. -/
@[ext]
structure Quaternion where
  w : ℝ
  x : ℝ
  y : ℝ
  z : ℝ

namespace Quaternion

/-- Modelled from the spec: the identity rotation (1,0,0,0) (spec section 4.1,
`identity()`), used by `main.rs` as `Quaternion::identity()`. -/
def identity : Quaternion := ⟨1, 0, 0, 0⟩

/-- Modelled from the spec: composition is the Hamilton product `a * b`,
applying rotation `b` first and then `a` (spec section 4.1, `compose`);
`main.rs` uses it as the `*` / `*=` operator on quaternions. -/
def mul (a b : Quaternion) : Quaternion :=
  ⟨a.w * b.w - a.x * b.x - a.y * b.y - a.z * b.z,
   a.w * b.x + a.x * b.w + a.y * b.z - a.z * b.y,
   a.w * b.y - a.x * b.z + a.y * b.w + a.z * b.x,
   a.w * b.z + a.x * b.y - a.y * b.x + a.z * b.w⟩

instance : Mul Quaternion := ⟨mul⟩

/-- Componentwise negation of a quaternion (overall sign flip). -/
def neg (a : Quaternion) : Quaternion := ⟨-a.w, -a.x, -a.y, -a.z⟩

instance : Neg Quaternion := ⟨neg⟩

/-- Componentwise addition, used inside slerp's interpolation formulas. -/
def add (a b : Quaternion) : Quaternion :=
  ⟨a.w + b.w, a.x + b.x, a.y + b.y, a.z + b.z⟩

instance : Add Quaternion := ⟨add⟩

/-- Scaling of every component by a real factor. -/
def scale (a : Quaternion) (r : ℝ) : Quaternion :=
  ⟨r * a.w, r * a.x, r * a.y, r * a.z⟩

/-- Squared norm w² + x² + y² + z² (spec section 3: the unit-norm invariant
is stated on this quantity). -/
def normSq (a : Quaternion) : ℝ := a.w ^ 2 + a.x ^ 2 + a.y ^ 2 + a.z ^ 2

/-- Four-component dot product, the quantity slerp inspects for the
shortest-arc test (spec section 4.1). -/
def dot (a b : Quaternion) : ℝ := a.w * b.w + a.x * b.x + a.y * b.y + a.z * b.z

/-- Renormalization to unit length, the fallback path of slerp
(spec section 4.1: "linear interpolation plus renormalization"). -/
noncomputable def normalize (a : Quaternion) : Quaternion :=
  a.scale (1 / Real.sqrt a.normSq)

/-- Modelled from the spec: `from_axis_angle(x, y, z, angle)` builds the unit
quaternion (cos(angle/2), sin(angle/2)·(x,y,z)); the axis is required to be a
unit vector by caller contract (spec section 4.1). -/
noncomputable def from_axis_angle (x y z angle : ℝ) : Quaternion :=
  ⟨Real.cos (angle / 2), x * Real.sin (angle / 2),
   y * Real.sin (angle / 2), z * Real.sin (angle / 2)⟩

/-- Modelled from the spec: `from_euler_angles(yaw, pitch, roll)` composes the
three single-axis rotations in the fixed order yaw ∘ pitch ∘ roll
(spec section 4.1); the axis assignment (yaw about Y, pitch about X, roll
about Z) is one of the conventions the spec leaves open (section 9). -/
noncomputable def from_euler_angles (yaw pitch roll : ℝ) : Quaternion :=
  (⟨Real.cos (yaw / 2), 0, Real.sin (yaw / 2), 0⟩ : Quaternion) *
    (⟨Real.cos (pitch / 2), Real.sin (pitch / 2), 0, 0⟩ : Quaternion) *
      (⟨Real.cos (roll / 2), 0, 0, Real.sin (roll / 2)⟩ : Quaternion)

/-- Shortest-arc target endpoint of slerp: `b` negated when the dot product of
the endpoints is negative (spec section 4.1, "if the dot product of a and b is
negative, one of the two must be negated before interpolating"). -/
noncomputable def slerpEnd (a b : Quaternion) : Quaternion :=
  if dot a b < 0 then -b else b

/-- Absolute dot product of the slerp endpoints, the cosine of the angle of
the arc actually interpolated after the shortest-arc adjustment. -/
noncomputable def slerpDot (a b : Quaternion) : ℝ :=
  if dot a b < 0 then -dot a b else dot a b

/-- Modelled from the spec: spherical linear interpolation (spec section 4.1,
`slerp`): negate one endpoint when the dot product is negative (shortest arc),
fall back to linear interpolation plus renormalization when the endpoints are
nearly parallel (dot product above a threshold close to 1), and otherwise use
the sine-based spherical formula. -/
noncomputable def slerp (a b : Quaternion) (t : ℝ) : Quaternion :=
  if 0.9995 < slerpDot a b then
    normalize ((a.scale (1 - t)) + ((slerpEnd a b).scale t))
  else
    (((a.scale (Real.sin ((1 - t) * Real.arccos (slerpDot a b)))) +
      ((slerpEnd a b).scale (Real.sin (t * Real.arccos (slerpDot a b))))).scale
      (1 / Real.sin (Real.arccos (slerpDot a b))))

end Quaternion

/-- Mutable state of the demo loop, from `src/main.rs` lines 127-136:
`quaternion_list` (the rotation sequence, initialised to `[identity]`),
the Euler-angle and axis-angle slider state, and the playback state
`animating` / `animate_index` / `animate_timer`. -/
structure AppState where
  quaternion_list : List Quaternion
  euler_angles0 : ℝ
  euler_angles1 : ℝ
  euler_angles2 : ℝ
  axis0 : ℝ
  axis1 : ℝ
  axis2 : ℝ
  axis_angle : ℝ
  animating : Bool
  animate_index : Nat
  animate_timer : ℝ

/-- Initial state from `src/main.rs` lines 127-136: a single identity
quaternion, Euler angles zero, axis (1,0,0), angle 0, not animating. -/
def initialState : AppState :=
  { quaternion_list := [Quaternion.identity]
    euler_angles0 := 0, euler_angles1 := 0, euler_angles2 := 0
    axis0 := 1, axis1 := 0, axis2 := 0, axis_angle := 0
    animating := false, animate_index := 0, animate_timer := 0 }

/-- Degree-to-radian conversion, `value.to_radians()` in the slider handlers. -/
noncomputable def toRadians (v : ℝ) : ℝ := v * (Real.pi / 180)

/-- Replacement of the last list element, `*quaternion_list.last_mut().unwrap() = q`
in the slider handlers (`src/main.rs` lines 223-224 etc.). On the empty list the
Rust code would panic; the model then produces `[q]`, and the theorems about
this operation assume a non-empty list. -/
def setLast (l : List Quaternion) (q : Quaternion) : List Quaternion :=
  l.dropLast ++ [q]

/-- Yaw slider handler, `src/main.rs` lines 215-225: stores the new yaw in
radians and rebuilds the last list element from all three Euler angles. -/
noncomputable def sliderYaw (value : ℝ) (s : AppState) : AppState :=
  let e0 := toRadians value
  { s with euler_angles0 := e0,
           quaternion_list := setLast s.quaternion_list
             (Quaternion.from_euler_angles e0 s.euler_angles1 s.euler_angles2) }

/-- Pitch slider handler, `src/main.rs` lines 227-237. -/
noncomputable def sliderPitch (value : ℝ) (s : AppState) : AppState :=
  let e1 := toRadians value
  { s with euler_angles1 := e1,
           quaternion_list := setLast s.quaternion_list
             (Quaternion.from_euler_angles s.euler_angles0 e1 s.euler_angles2) }

/-- Roll slider handler, `src/main.rs` lines 239-250. -/
noncomputable def sliderRoll (value : ℝ) (s : AppState) : AppState :=
  let e2 := toRadians value
  { s with euler_angles2 := e2,
           quaternion_list := setLast s.quaternion_list
             (Quaternion.from_euler_angles s.euler_angles0 s.euler_angles1 e2) }

/-- Normalization of the stored axis vector, `axis.clone().normalize()` in the
axis-slider handlers. In the Rust source a zero axis would yield NaN
components; in the real-valued model division by a zero norm yields zero. -/
noncomputable def normalizedAxis (x y z : ℝ) : ℝ × ℝ × ℝ :=
  let n := Real.sqrt (x ^ 2 + y ^ 2 + z ^ 2)
  (x / n, y / n, z / n)

/-- Axis-X slider handler, `src/main.rs` lines 252-264: stores the new axis
component and rebuilds the last list element from the normalized axis and the
stored angle. -/
noncomputable def sliderAxisX (value : ℝ) (s : AppState) : AppState :=
  let n := normalizedAxis value s.axis1 s.axis2
  { s with axis0 := value,
           quaternion_list := setLast s.quaternion_list
             (Quaternion.from_axis_angle n.1 n.2.1 n.2.2 s.axis_angle) }

/-- Axis-Y slider handler, `src/main.rs` lines 266-278. -/
noncomputable def sliderAxisY (value : ℝ) (s : AppState) : AppState :=
  let n := normalizedAxis s.axis0 value s.axis2
  { s with axis1 := value,
           quaternion_list := setLast s.quaternion_list
             (Quaternion.from_axis_angle n.1 n.2.1 n.2.2 s.axis_angle) }

/-- Axis-Z slider handler, `src/main.rs` lines 280-292. -/
noncomputable def sliderAxisZ (value : ℝ) (s : AppState) : AppState :=
  let n := normalizedAxis s.axis0 s.axis1 value
  { s with axis2 := value,
           quaternion_list := setLast s.quaternion_list
             (Quaternion.from_axis_angle n.1 n.2.1 n.2.2 s.axis_angle) }

/-- Angle slider handler, `src/main.rs` lines 294-306: stores the new angle in
radians and rebuilds the last list element. -/
noncomputable def sliderAngle (value : ℝ) (s : AppState) : AppState :=
  let ang := toRadians value
  let n := normalizedAxis s.axis0 s.axis1 s.axis2
  { s with axis_angle := ang,
           quaternion_list := setLast s.quaternion_list
             (Quaternion.from_axis_angle n.1 n.2.1 n.2.2 ang) }

/-- "Add Rotation" button, `src/main.rs` lines 309-315:
`quaternion_list.push(Quaternion::identity())`. -/
def addRotation (s : AppState) : AppState :=
  { s with quaternion_list := s.quaternion_list ++ [Quaternion.identity] }

/-- "Clear Rotations" button, `src/main.rs` lines 317-323:
`quaternion_list = vec![Quaternion::identity()]`; note that the playback
fields `animating` / `animate_index` / `animate_timer` are NOT reset. -/
def clearRotations (s : AppState) : AppState :=
  { s with quaternion_list := [Quaternion.identity] }

/-- "Animate Rotations" button, `src/main.rs` lines 325-333:
`animating = true; animate_index = 0; animate_timer = 0.0;` with no guard on
the length of the list. -/
def startAnimation (s : AppState) : AppState :=
  { s with animating := true, animate_index := 0, animate_timer := 0 }

/-- Composition of the settled segment, `src/main.rs` lines 347-349:
`for q in quaternion_list.iter().take(animate_index) { rotation *= *q; }`
starting from `rotation = Quaternion::identity()`. -/
def settledBase (s : AppState) : Quaternion :=
  (s.quaternion_list.take s.animate_index).foldl (fun r q => r * q)
    Quaternion.identity

/-- Rotation computed by the draw block, `src/main.rs` lines 344-365.
When animating it slerps from the composed settled segment toward that
segment composed with `quaternion_list[animate_index]` at parameter
`animate_timer`; the Rust indexing panics when `animate_index` is out of
bounds, modelled here by `getD` with an `identity` default (the bounds
question is treated separately). When idle it folds the whole list. -/
noncomputable def current_rotation (s : AppState) : Quaternion :=
  if s.animating then
    let base := settledBase s
    Quaternion.slerp base
      (base * (s.quaternion_list.getD s.animate_index Quaternion.identity))
      s.animate_timer
  else
    s.quaternion_list.foldl (fun r q => r * q) Quaternion.identity

/-- Per-frame timer advance, `src/main.rs` lines 353-360 (executed only while
`animating`): add 1/60 to the timer; on reaching 1, wrap the timer, advance
the index and deactivate once the index reaches the list length. -/
noncomputable def tick (s : AppState) : AppState :=
  if s.animating then
    if 1 ≤ s.animate_timer + 1 / 60 then
      if s.quaternion_list.length ≤ s.animate_index + 1 then
        { s with animate_timer := s.animate_timer + 1 / 60 - 1,
                 animate_index := s.animate_index + 1, animating := false }
      else
        { s with animate_timer := s.animate_timer + 1 / 60 - 1,
                 animate_index := s.animate_index + 1 }
    else
      { s with animate_timer := s.animate_timer + 1 / 60 }
  else s

/-- States reachable from the initial state through the operations the demo's
UI layer performs: slider edits of the last element, appending, resetting,
starting playback, and per-frame ticks. -/
inductive Reachable : AppState → Prop
  | init : Reachable initialState
  | yaw (v : ℝ) {s : AppState} : Reachable s → Reachable (sliderYaw v s)
  | pitch (v : ℝ) {s : AppState} : Reachable s → Reachable (sliderPitch v s)
  | roll (v : ℝ) {s : AppState} : Reachable s → Reachable (sliderRoll v s)
  | axisX (v : ℝ) {s : AppState} : Reachable s → Reachable (sliderAxisX v s)
  | axisY (v : ℝ) {s : AppState} : Reachable s → Reachable (sliderAxisY v s)
  | axisZ (v : ℝ) {s : AppState} : Reachable s → Reachable (sliderAxisZ v s)
  | angle (v : ℝ) {s : AppState} : Reachable s → Reachable (sliderAngle v s)
  | add {s : AppState} : Reachable s → Reachable (addRotation s)
  | clear {s : AppState} : Reachable s → Reachable (clearRotations s)
  | start {s : AppState} : Reachable s → Reachable (startAnimation s)
  | step {s : AppState} : Reachable s → Reachable (tick s)

/-- Concrete playing state: two identity rotations, segment 0, timer 59/60 —
one tick away from the wrap that advances the index to length(sequence) - 1. -/
noncomputable def c2State : AppState :=
  { quaternion_list := [Quaternion.identity, Quaternion.identity]
    euler_angles0 := 0, euler_angles1 := 0, euler_angles2 := 0
    axis0 := 1, axis1 := 0, axis2 := 0, axis_angle := 0
    animating := true, animate_index := 0, animate_timer := 59 / 60 }

/-- State reached by: press "Add Rotation" (two-element list), press
"Animate Rotations", let 60 frames elapse (the index advances to 1), then
press "Clear Rotations" (the list shrinks to one element but the playback
cursor is not reset). -/
noncomputable def c3State : AppState :=
  clearRotations (tick^[60] (startAnimation (addRotation initialState)))

/-- State with an empty rotation sequence; it is not reachable in the demo,
but it exercises the guard the spec requires of `start()`. -/
def emptyListState : AppState :=
  { initialState with quaternion_list := [] }

/-- The 90-degree yaw rotation of the sequencer scenario,
`from_euler_angles(pi/2, 0, 0)`. -/
noncomputable def yaw90 : Quaternion :=
  Quaternion.from_euler_angles (Real.pi / 2) 0 0

/-- Start of the sequencer scenario: the sequence
[identity, 90-degree yaw, 90-degree yaw] right after `start()`. -/
noncomputable def c1State : AppState :=
  startAnimation
    { initialState with
        quaternion_list := [Quaternion.identity, yaw90, yaw90] }

/-- Idle three-element state used to exercise the idle-state composition. -/
def c5State : AppState :=
  { initialState with
      quaternion_list := [Quaternion.identity, Quaternion.identity,
        Quaternion.identity] }

/-- Frame property of a slider edit: the new state differs from the old one
only in the last element of the rotation list (which becomes `q`) and the
slider bookkeeping; earlier elements, the list length and the playback state
are untouched. -/
def replacesLastOnly (s s2 : AppState) (q : Quaternion) : Prop :=
  s2.quaternion_list.dropLast = s.quaternion_list.dropLast ∧
  s2.quaternion_list.length = s.quaternion_list.length ∧
  s2.quaternion_list.getLast? = some q ∧
  s2.animating = s.animating ∧
  s2.animate_index = s.animate_index ∧
  s2.animate_timer = s.animate_timer

namespace Quaternion

theorem mul_def (a b : Quaternion) : a * b =
    ⟨a.w * b.w - a.x * b.x - a.y * b.y - a.z * b.z,
     a.w * b.x + a.x * b.w + a.y * b.z - a.z * b.y,
     a.w * b.y - a.x * b.z + a.y * b.w + a.z * b.x,
     a.w * b.z + a.x * b.y - a.y * b.x + a.z * b.w⟩ := rfl

theorem neg_def (a : Quaternion) : -a = ⟨-a.w, -a.x, -a.y, -a.z⟩ := rfl

theorem add_def (a b : Quaternion) :
    a + b = ⟨a.w + b.w, a.x + b.x, a.y + b.y, a.z + b.z⟩ := rfl

theorem identity_mul (a : Quaternion) : identity * a = a := by
  ext <;> simp [identity, mul_def]

theorem mul_identity (a : Quaternion) : a * identity = a := by
  ext <;> simp [identity, mul_def]

theorem mul_assoc' (a b c : Quaternion) : a * b * c = a * (b * c) := by
  ext <;> simp [mul_def] <;> ring

theorem normSq_identity : normSq identity = 1 := by
  simp [identity, normSq]

theorem normSq_nonneg (a : Quaternion) : 0 ≤ normSq a := by
  unfold normSq; positivity

theorem normSq_neg (a : Quaternion) : normSq (-a) = normSq a := by
  simp [neg_def, normSq]

theorem dot_neg_right (a b : Quaternion) : dot a (-b) = -dot a b := by
  simp [neg_def, dot]; ring

theorem normSq_scale (a : Quaternion) (r : ℝ) :
    normSq (a.scale r) = r ^ 2 * normSq a := by
  simp [scale, normSq]; ring

theorem scale_one (a : Quaternion) : a.scale 1 = a := by
  ext <;> simp [scale]

theorem scale_scale (a : Quaternion) (r s : ℝ) :
    (a.scale r).scale s = a.scale (s * r) := by
  ext <;> simp [scale] <;> ring

theorem add_scale_zero (a b : Quaternion) : a + b.scale 0 = a := by
  ext <;> simp [add_def, scale]

theorem normSq_mul (a b : Quaternion) :
    normSq (a * b) = normSq a * normSq b := by
  simp [mul_def, normSq]; ring

/-- Expansion of the squared norm of a linear combination, used to settle the
unit-norm property of both slerp branches. -/
theorem normSq_combo (a b : Quaternion) (r s : ℝ) :
    normSq ((a.scale r) + (b.scale s)) =
      r ^ 2 * normSq a + s ^ 2 * normSq b + 2 * r * s * dot a b := by
  simp [add_def, scale, normSq, dot]; ring

/-- Cauchy-Schwarz for the four-component dot product. -/
theorem dot_sq_le (a b : Quaternion) :
    (dot a b) ^ 2 ≤ normSq a * normSq b := by
  simp only [dot, normSq]
  nlinarith [sq_nonneg (a.w * b.x - a.x * b.w), sq_nonneg (a.w * b.y - a.y * b.w),
    sq_nonneg (a.w * b.z - a.z * b.w), sq_nonneg (a.x * b.y - a.y * b.x),
    sq_nonneg (a.x * b.z - a.z * b.x), sq_nonneg (a.y * b.z - a.z * b.y)]

theorem normSq_normalize (a : Quaternion) (h : normSq a ≠ 0) :
    normSq (normalize a) = 1 := by
  have h0 : 0 ≤ normSq a := normSq_nonneg a
  rw [normalize, normSq_scale, div_pow, one_pow, Real.sq_sqrt h0]
  field_simp

theorem scale_zero_add (a b : Quaternion) : a.scale 0 + b = b := by
  ext <;> simp [add_def, scale]

theorem normalize_of_normSq_one (a : Quaternion) (h : normSq a = 1) :
    normalize a = a := by
  rw [normalize, h, Real.sqrt_one, div_one, scale_one]

theorem slerpDot_nonneg (a b : Quaternion) : 0 ≤ slerpDot a b := by
  unfold slerpDot; split <;> linarith

theorem slerpDot_le_one (a b : Quaternion) (ha : normSq a = 1)
    (hb : normSq b = 1) : slerpDot a b ≤ 1 := by
  have h := dot_sq_le a b
  rw [ha, hb] at h
  unfold slerpDot; split <;> nlinarith

theorem dot_slerpEnd (a b : Quaternion) : dot a (slerpEnd a b) = slerpDot a b := by
  unfold slerpEnd slerpDot
  split
  · exact dot_neg_right a b
  · rfl

theorem normSq_slerpEnd (a b : Quaternion) (hb : normSq b = 1) :
    normSq (slerpEnd a b) = 1 := by
  unfold slerpEnd
  split
  · rw [normSq_neg]; exact hb
  · exact hb

theorem sin_arccos_pos (D : ℝ) (h0 : 0 ≤ D) (h1 : D ≤ 0.9995) :
    0 < Real.sin (Real.arccos D) := by
  rw [Real.sin_arccos]
  apply Real.sqrt_pos.mpr
  nlinarith

/-- Trigonometric identity behind the unit-norm property of the sine branch
of slerp: the squared norm of the spherical combination collapses to
sin²(A+B). -/
theorem sin_sq_combo (A B : ℝ) :
    Real.sin A ^ 2 + Real.sin B ^ 2 +
      2 * Real.sin A * Real.sin B * Real.cos (A + B) = Real.sin (A + B) ^ 2 := by
  rw [Real.sin_add, Real.cos_add]
  nlinarith [Real.sin_sq_add_cos_sq A, Real.sin_sq_add_cos_sq B]

/-- The value of slerp at parameter 0 is exactly the first endpoint, in both
the spherical and the linear-fallback branch. -/
theorem slerp_zero (a b : Quaternion) (ha : normSq a = 1) :
    slerp a b 0 = a := by
  unfold slerp
  split
  · rw [sub_zero, scale_one, add_scale_zero, normalize_of_normSq_one a ha]
  · next h =>
    have hsin : Real.sin (Real.arccos (slerpDot a b)) ≠ 0 :=
      ne_of_gt (sin_arccos_pos _ (slerpDot_nonneg a b) (by linarith [not_lt.mp h]))
    rw [sub_zero, one_mul, zero_mul, Real.sin_zero, add_scale_zero, scale_scale,
      one_div, inv_mul_cancel₀ hsin, scale_one]

/-- The value of slerp at parameter 1 is exactly the shortest-arc endpoint
(`b` up to an overall sign flip), in both branches. -/
theorem slerp_one (a b : Quaternion) (hb : normSq b = 1) :
    slerp a b 1 = slerpEnd a b := by
  unfold slerp
  split
  · rw [sub_self, scale_zero_add, scale_one,
      normalize_of_normSq_one _ (normSq_slerpEnd a b hb)]
  · next h =>
    have hsin : Real.sin (Real.arccos (slerpDot a b)) ≠ 0 :=
      ne_of_gt (sin_arccos_pos _ (slerpDot_nonneg a b) (by linarith [not_lt.mp h]))
    rw [sub_self, zero_mul, Real.sin_zero, one_mul, scale_zero_add, scale_scale,
      one_div, inv_mul_cancel₀ hsin, scale_one]

/-- Unit-norm preservation of slerp: for unit endpoints the result has squared
norm exactly 1, for every interpolation parameter. -/
theorem slerp_normSq (a b : Quaternion) (t : ℝ) (ha : normSq a = 1)
    (hb : normSq b = 1) : normSq (slerp a b t) = 1 := by
  have hD0 : 0 ≤ slerpDot a b := slerpDot_nonneg a b
  have hD1 : slerpDot a b ≤ 1 := slerpDot_le_one a b ha hb
  unfold slerp
  split
  · next h =>
    apply normSq_normalize
    rw [normSq_combo, ha, normSq_slerpEnd a b hb, dot_slerpEnd]
    have hkey : (0:ℝ) ≤ (1 - slerpDot a b) * (1 - 2 * t) ^ 2 :=
      mul_nonneg (by linarith) (sq_nonneg _)
    nlinarith
  · next h =>
    have hle : slerpDot a b ≤ 0.9995 := not_lt.mp h
    have hsinpos : 0 < Real.sin (Real.arccos (slerpDot a b)) :=
      sin_arccos_pos _ hD0 hle
    have hcos : Real.cos (Real.arccos (slerpDot a b)) = slerpDot a b :=
      Real.cos_arccos (by linarith) hD1
    rw [normSq_scale, normSq_combo, ha, normSq_slerpEnd a b hb, dot_slerpEnd]
    have hAB : (1 - t) * Real.arccos (slerpDot a b) + t * Real.arccos (slerpDot a b)
        = Real.arccos (slerpDot a b) := by ring
    have hid := sin_sq_combo ((1 - t) * Real.arccos (slerpDot a b))
      (t * Real.arccos (slerpDot a b))
    rw [hAB, hcos] at hid
    rw [mul_one, mul_one]
    rw [hid]
    field_simp

end Quaternion

theorem tick_not_animating (s : AppState) (h : s.animating = false) :
    tick s = s := by
  unfold tick
  rw [if_neg (by simp [h])]

theorem tick_advance (s : AppState) (h : s.animating = true)
    (hlt : ¬ (1 : ℝ) ≤ s.animate_timer + 1 / 60) :
    tick s = { s with animate_timer := s.animate_timer + 1 / 60 } := by
  unfold tick
  rw [if_pos h, if_neg hlt]

theorem tick_wrap_continue (s : AppState) (h : s.animating = true)
    (hge : (1 : ℝ) ≤ s.animate_timer + 1 / 60)
    (hlen : ¬ s.quaternion_list.length ≤ s.animate_index + 1) :
    tick s = { s with animate_timer := s.animate_timer + 1 / 60 - 1,
                      animate_index := s.animate_index + 1 } := by
  unfold tick
  rw [if_pos h, if_pos hge, if_neg hlen]

theorem tick_wrap_finish (s : AppState) (h : s.animating = true)
    (hge : (1 : ℝ) ≤ s.animate_timer + 1 / 60)
    (hlen : s.quaternion_list.length ≤ s.animate_index + 1) :
    tick s = { s with animate_timer := s.animate_timer + 1 / 60 - 1,
                      animate_index := s.animate_index + 1, animating := false } := by
  unfold tick
  rw [if_pos h, if_pos hge, if_pos hlen]

theorem tick_list (s : AppState) : (tick s).quaternion_list = s.quaternion_list := by
  unfold tick
  split_ifs <;> rfl

theorem reachable_iter (s : AppState) (n : Nat) (hs : Reachable s) :
    Reachable (tick^[n] s) := by
  induction n with
  | zero => exact hs
  | succ n ih => rw [Function.iterate_succ_apply']; exact Reachable.step ih

/-- Every state the demo loop can reach keeps at least one element in the
rotation list: it starts as `[identity]`, "Clear Rotations" resets it to
`[identity]`, "Add Rotation" appends, the sliders replace the last element,
and playback never touches the list. -/
theorem reachable_ne_nil (s : AppState) (hs : Reachable s) :
    s.quaternion_list ≠ [] := by
  induction hs with
  | init => simp [initialState]
  | yaw v _ _ => simp [sliderYaw, setLast]
  | pitch v _ _ => simp [sliderPitch, setLast]
  | roll v _ _ => simp [sliderRoll, setLast]
  | axisX v _ _ => simp [sliderAxisX, setLast]
  | axisY v _ _ => simp [sliderAxisY, setLast]
  | axisZ v _ _ => simp [sliderAxisZ, setLast]
  | angle v _ _ => simp [sliderAngle, setLast]
  | add _ _ => simp [addRotation]
  | clear _ _ => simp [clearRotations]
  | start _ ih => exact ih
  | step _ ih => rw [tick_list]; exact ih

/-- The timer stays inside [0, 1) in every reachable state: it is 0 initially
and on `start()`, the sliders and list buttons never touch it, and a tick
either advances it below 1 or wraps it back below 1/60. -/
theorem reachable_timer (s : AppState) (hs : Reachable s) :
    0 ≤ s.animate_timer ∧ s.animate_timer < 1 := by
  induction hs with
  | init => norm_num [initialState]
  | yaw v _ ih => exact ih
  | pitch v _ ih => exact ih
  | roll v _ ih => exact ih
  | axisX v _ ih => exact ih
  | axisY v _ ih => exact ih
  | axisZ v _ ih => exact ih
  | angle v _ ih => exact ih
  | add _ ih => exact ih
  | clear _ ih => exact ih
  | start _ _ => norm_num [startAnimation]
  | @step s' hr ih =>
    cases hb : s'.animating with
    | false => rw [tick_not_animating s' hb]; exact ih
    | true =>
      by_cases hge : (1 : ℝ) ≤ s'.animate_timer + 1 / 60
      · by_cases hlen : s'.quaternion_list.length ≤ s'.animate_index + 1
        · rw [tick_wrap_finish s' hb hge hlen]
          constructor <;> (dsimp only; linarith [ih.1, ih.2])
        · rw [tick_wrap_continue s' hb hge hlen]
          constructor <;> (dsimp only; linarith [ih.1, ih.2])
      · rw [tick_advance s' hb hge]
        constructor <;> (dsimp only; linarith [ih.1, ih.2])

/-- Iterating `tick` from a zero timer: the first 59 ticks only advance the
timer, by exactly 1/60 each. -/
theorem tick_iter_small (s : AppState) (h : s.animating = true)
    (ht : s.animate_timer = 0) :
    ∀ j : Nat, j ≤ 59 → tick^[j] s = { s with animate_timer := (j : ℝ) / 60 } := by
  intro j
  induction j with
  | zero =>
    intro _
    rw [Function.iterate_zero_apply,
      show ((0 : Nat) : ℝ) / 60 = s.animate_timer by rw [ht]; norm_num]
  | succ j ih =>
    intro hj
    rw [Function.iterate_succ_apply', ih (by omega)]
    have hlt : ¬ (1 : ℝ) ≤ (j : ℝ) / 60 + 1 / 60 := by
      rw [div_add_div_same, not_le, div_lt_one (by norm_num)]
      have : (j : ℝ) ≤ 58 := by exact_mod_cast (by omega : j ≤ 58)
      linarith
    rw [tick_advance { s with animate_timer := (j : ℝ) / 60 } h hlt]
    have harith : (j : ℝ) / 60 + 1 / 60 = ((j + 1 : Nat) : ℝ) / 60 := by
      rw [div_add_div_same]
      push_cast
      ring
    simp only [harith]

/-- The 60th tick from a zero timer wraps: when the advanced index is still in
range the state keeps playing at the next segment with a zero timer. -/
theorem tick_sixty_continue (s : AppState) (h : s.animating = true)
    (ht : s.animate_timer = 0)
    (hlen : s.animate_index + 1 < s.quaternion_list.length) :
    tick^[60] s =
      { s with animate_index := s.animate_index + 1, animate_timer := 0 } := by
  rw [show (60 : Nat) = 59 + 1 from rfl, Function.iterate_succ_apply',
    tick_iter_small s h ht 59 (by omega)]
  have hge : (1 : ℝ) ≤ ((59 : Nat) : ℝ) / 60 + 1 / 60 := by norm_num
  have hlen' : ¬ s.quaternion_list.length ≤ s.animate_index + 1 := by omega
  rw [tick_wrap_continue { s with animate_timer := ((59 : Nat) : ℝ) / 60 } h hge hlen']
  have harith : ((59 : Nat) : ℝ) / 60 + 1 / 60 - 1 = 0 := by norm_num
  simp only [harith]

/-- The 60th tick from a zero timer wraps; when the advanced index reaches the
list length, playback deactivates. -/
theorem tick_sixty_finish (s : AppState) (h : s.animating = true)
    (ht : s.animate_timer = 0)
    (hlen : s.quaternion_list.length ≤ s.animate_index + 1) :
    tick^[60] s =
      { s with animating := false, animate_index := s.animate_index + 1,
               animate_timer := 0 } := by
  rw [show (60 : Nat) = 59 + 1 from rfl, Function.iterate_succ_apply',
    tick_iter_small s h ht 59 (by omega)]
  have hge : (1 : ℝ) ≤ ((59 : Nat) : ℝ) / 60 + 1 / 60 := by norm_num
  rw [tick_wrap_finish { s with animate_timer := ((59 : Nat) : ℝ) / 60 } h hge hlen]
  have harith : ((59 : Nat) : ℝ) / 60 + 1 / 60 - 1 = 0 := by norm_num
  simp only [harith]

/-- Claim C2, counterexample: in a playing state on a two-element sequence
with timer 59/60, the tick wraps and the index becomes
length(sequence) - 1 = 1 after advancing, yet playback stays active — the
code deactivates only when the advanced index reaches length(sequence), so
the final list element is animated as its own segment, contrary to the
claim. -/
theorem c2_counterexample :
    c2State.animating = true ∧
    (1 : ℝ) ≤ c2State.animate_timer + 1 / 60 ∧
    (tick c2State).animate_index = c2State.quaternion_list.length - 1 ∧
    (tick c2State).animating = true := by
  have hstep := tick_wrap_continue c2State rfl (by norm_num [c2State])
    (by norm_num [c2State])
  refine ⟨rfl, by norm_num [c2State], ?_, ?_⟩ <;> rw [hstep] <;> rfl

/-- Claim C2, amended: a tick whose timer overflow advances the segment index
deactivates playback exactly when the advanced index reaches
length(sequence) — not length(sequence) - 1; every list element, the final
one included, is animated as its own segment. -/
theorem c2_theorem (s : AppState) (h : s.animating = true)
    (hge : (1 : ℝ) ≤ s.animate_timer + 1 / 60) :
    (tick s).animate_index = s.animate_index + 1 ∧
    ((tick s).animating = false ↔
      s.quaternion_list.length ≤ s.animate_index + 1) := by
  by_cases hlen : s.quaternion_list.length ≤ s.animate_index + 1
  · rw [tick_wrap_finish s h hge hlen]
    exact ⟨rfl, by simpa using hlen⟩
  · rw [tick_wrap_continue s h hge hlen]
    refine ⟨rfl, ?_⟩
    dsimp only
    simp [h, hlen]

/-- Witness for the amended C2 at the concrete state `c2State`. -/
theorem c2_witness :
    (tick c2State).animate_index = c2State.animate_index + 1 ∧
    ((tick c2State).animating = false ↔
      c2State.quaternion_list.length ≤ c2State.animate_index + 1) :=
  c2_theorem c2State rfl (by norm_num [c2State])

/-- Claim C3: the when-active-the-index-is-in-bounds invariant is violated by
a reachable state — after clearing the list mid-playback the state is still
active with `animate_index = 1` but a length-1 list, so the next frame's
read of `quaternion_list[animate_index]` is out of bounds (a panic in the
Rust source). -/
theorem c3_theorem :
    Reachable c3State ∧ c3State.animating = true ∧
    c3State.quaternion_list.length ≤ c3State.animate_index := by
  have h60 := tick_sixty_continue (startAnimation (addRotation initialState)) rfl rfl
    (by simp [startAnimation, addRotation, initialState])
  refine ⟨Reachable.clear
    (reachable_iter _ 60 (Reachable.start (Reachable.add Reachable.init))), ?_, ?_⟩
  · unfold c3State
    rw [h60]
    rfl
  · unfold c3State
    rw [h60]
    simp [clearRotations]

/-- Claim C6, counterexample: the "Animate Rotations" handler has no
empty-sequence guard; applied to a state with an empty sequence it still
sets `animating = true`, where the claim requires `active == false`. -/
theorem c6_counterexample :
    emptyListState.quaternion_list = [] ∧
    (startAnimation emptyListState).animating = true :=
  ⟨rfl, rfl⟩

/-- Claim C6, amended: `start()` unconditionally sets `index = 0`,
`elapsed = 0`, `active = true`, with no empty-sequence guard; the empty case
cannot arise in the program because every reachable state keeps a non-empty
sequence. -/
theorem c6_theorem (s : AppState) :
    startAnimation s =
      { s with animating := true, animate_index := 0, animate_timer := 0 } ∧
    (Reachable s → s.quaternion_list ≠ []) :=
  ⟨rfl, reachable_ne_nil s⟩

/-- Witness for the amended C6 at the initial state. -/
theorem c6_witness :
    startAnimation initialState =
      { initialState with animating := true, animate_index := 0,
                          animate_timer := 0 } ∧
    initialState.quaternion_list ≠ [] :=
  ⟨(c6_theorem initialState).1, (c6_theorem initialState).2 Reachable.init⟩

/-- Claim C7: a tick during playback adds exactly 1/60 to the timer, wrapping
by subtracting 1 and advancing the index when the sum reaches 1; and in every
reachable state the timer lies in [0, 1). -/
theorem c7_theorem :
    (∀ s : AppState, s.animating = true →
      ((¬ (1 : ℝ) ≤ s.animate_timer + 1 / 60 ∧
         (tick s).animate_timer = s.animate_timer + 1 / 60 ∧
         (tick s).animate_index = s.animate_index) ∨
       ((1 : ℝ) ≤ s.animate_timer + 1 / 60 ∧
         (tick s).animate_timer = s.animate_timer + 1 / 60 - 1 ∧
         (tick s).animate_index = s.animate_index + 1))) ∧
    (∀ s : AppState, Reachable s →
      0 ≤ s.animate_timer ∧ s.animate_timer < 1) := by
  constructor
  · intro s h
    by_cases hge : (1 : ℝ) ≤ s.animate_timer + 1 / 60
    · right
      by_cases hlen : s.quaternion_list.length ≤ s.animate_index + 1
      · rw [tick_wrap_finish s h hge hlen]
        exact ⟨hge, rfl, rfl⟩
      · rw [tick_wrap_continue s h hge hlen]
        exact ⟨hge, rfl, rfl⟩
    · left
      rw [tick_advance s h hge]
      exact ⟨hge, rfl, rfl⟩
  · exact reachable_timer

/-- Witness for C7: the tick description instantiated right after `start()`,
and the timer range at the initial state. -/
theorem c7_witness :
    ((¬ (1 : ℝ) ≤ (startAnimation initialState).animate_timer + 1 / 60 ∧
       (tick (startAnimation initialState)).animate_timer =
         (startAnimation initialState).animate_timer + 1 / 60 ∧
       (tick (startAnimation initialState)).animate_index =
         (startAnimation initialState).animate_index) ∨
     ((1 : ℝ) ≤ (startAnimation initialState).animate_timer + 1 / 60 ∧
       (tick (startAnimation initialState)).animate_timer =
         (startAnimation initialState).animate_timer + 1 / 60 - 1 ∧
       (tick (startAnimation initialState)).animate_index =
         (startAnimation initialState).animate_index + 1)) ∧
    (0 ≤ initialState.animate_timer ∧ initialState.animate_timer < 1) :=
  ⟨c7_theorem.1 (startAnimation initialState) rfl,
   c7_theorem.2 initialState Reachable.init⟩

theorem current_rotation_active (s : AppState) (h : s.animating = true) :
    current_rotation s =
      Quaternion.slerp (settledBase s)
        (settledBase s *
          (s.quaternion_list.getD s.animate_index Quaternion.identity))
        s.animate_timer := by
  unfold current_rotation
  rw [if_pos h]

theorem current_rotation_idle (s : AppState) (h : s.animating = false) :
    current_rotation s =
      s.quaternion_list.foldl (fun r q => r * q) Quaternion.identity := by
  unfold current_rotation
  rw [if_neg (by simp [h])]

/-- Claim C4: in a playing state with an in-range index, the displayed
rotation is the slerp from the composed settled segment toward that segment
composed with `sequence[index]`, at the current timer; and the settled
segment at index 0 is the identity. -/
theorem c4_theorem (s : AppState) (h : s.animating = true)
    (hi : s.animate_index < s.quaternion_list.length) :
    current_rotation s =
      Quaternion.slerp (settledBase s)
        (settledBase s * s.quaternion_list.get ⟨s.animate_index, hi⟩)
        s.animate_timer ∧
    (s.animate_index = 0 → settledBase s = Quaternion.identity) := by
  constructor
  · rw [current_rotation_active s h]
    have hd : s.quaternion_list.getD s.animate_index Quaternion.identity =
        s.quaternion_list.get ⟨s.animate_index, hi⟩ := by
      rw [List.getD_eq_getElem?_getD, List.getElem?_eq_getElem hi]
      rfl
    rw [hd]
  · intro h0
    unfold settledBase
    rw [h0]
    rfl

/-- Witness for C4 right after `start()` on the initial one-element list. -/
theorem c4_witness :
    current_rotation (startAnimation initialState) =
      Quaternion.slerp (settledBase (startAnimation initialState))
        (settledBase (startAnimation initialState) *
          (startAnimation initialState).quaternion_list.get
            ⟨(startAnimation initialState).animate_index, by
              simp [startAnimation, initialState]⟩)
        (startAnimation initialState).animate_timer ∧
    ((startAnimation initialState).animate_index = 0 →
      settledBase (startAnimation initialState) = Quaternion.identity) :=
  c4_theorem (startAnimation initialState) rfl
    (by simp [startAnimation, initialState])

/-- Claim C5: when idle, the displayed rotation is the left-to-right fold of
composition over the whole sequence starting from the identity, and on a
three-element sequence this equals q1 * (q2 * q3). -/
theorem c5_theorem :
    (∀ s : AppState, s.animating = false →
      current_rotation s =
        s.quaternion_list.foldl (fun r q => r * q) Quaternion.identity) ∧
    (∀ (q1 q2 q3 : Quaternion) (s : AppState), s.animating = false →
      s.quaternion_list = [q1, q2, q3] →
      current_rotation s = q1 * (q2 * q3)) := by
  refine ⟨fun s h => current_rotation_idle s h, ?_⟩
  intro q1 q2 q3 s h hl
  rw [current_rotation_idle s h, hl]
  simp only [List.foldl_cons, List.foldl_nil]
  rw [Quaternion.identity_mul, Quaternion.mul_assoc']

/-- Witness for C5 at an idle three-element state. -/
theorem c5_witness :
    current_rotation c5State =
      c5State.quaternion_list.foldl (fun r q => r * q) Quaternion.identity ∧
    current_rotation c5State =
      Quaternion.identity * (Quaternion.identity * Quaternion.identity) :=
  ⟨c5_theorem.1 c5State rfl,
   c5_theorem.2 Quaternion.identity Quaternion.identity Quaternion.identity
     c5State rfl rfl⟩

theorem yaw90_eq : yaw90 = ⟨Real.sqrt 2 / 2, 0, Real.sqrt 2 / 2, 0⟩ := by
  unfold yaw90 Quaternion.from_euler_angles
  rw [show Real.pi / 2 / 2 = Real.pi / 4 by ring]
  ext <;>
    simp [Quaternion.mul_def, Real.cos_pi_div_four, Real.sin_pi_div_four]

theorem normSq_yaw90 : Quaternion.normSq yaw90 = 1 := by
  rw [yaw90_eq]
  unfold Quaternion.normSq
  have h2 : Real.sqrt 2 ^ 2 = 2 := Real.sq_sqrt (by norm_num)
  dsimp only
  linear_combination h2 / 2

theorem c1_tick60 :
    tick^[60] c1State =
      { c1State with animate_index := 1, animate_timer := 0 } := by
  exact tick_sixty_continue c1State rfl rfl
    (by simp [c1State, startAnimation, initialState])

theorem c1_tick120 :
    tick^[120] c1State =
      { c1State with animate_index := 2, animate_timer := 0 } := by
  rw [show (120 : Nat) = 60 + 60 from rfl, Function.iterate_add_apply, c1_tick60]
  exact tick_sixty_continue _ rfl rfl
    (by simp [c1State, startAnimation, initialState])

theorem c1_tick180 :
    tick^[180] c1State =
      { c1State with animating := false, animate_index := 3,
                     animate_timer := 0 } := by
  rw [show (180 : Nat) = 60 + 120 from rfl, Function.iterate_add_apply, c1_tick120]
  exact tick_sixty_finish _ rfl rfl
    (by simp [c1State, startAnimation, initialState])

theorem c1_rot60 :
    current_rotation (tick^[60] c1State) = Quaternion.identity := by
  rw [c1_tick60, current_rotation_active _ rfl]
  have hbase :
      settledBase { c1State with animate_index := 1, animate_timer := 0 } =
        Quaternion.identity := by
    unfold settledBase
    simp [c1State, startAnimation, initialState, Quaternion.mul_identity]
  have hget :
      ({ c1State with animate_index := 1, animate_timer := 0 } :
          AppState).quaternion_list.getD 1 Quaternion.identity = yaw90 := by
    simp [c1State, startAnimation, initialState]
  rw [hbase, hget, Quaternion.identity_mul]
  exact Quaternion.slerp_zero Quaternion.identity yaw90 Quaternion.normSq_identity

theorem c1_rot120 :
    current_rotation (tick^[120] c1State) = yaw90 := by
  rw [c1_tick120, current_rotation_active _ rfl]
  have hbase :
      settledBase { c1State with animate_index := 2, animate_timer := 0 } =
        yaw90 := by
    unfold settledBase
    simp [c1State, startAnimation, initialState, Quaternion.mul_identity,
      Quaternion.identity_mul]
  have hget :
      ({ c1State with animate_index := 2, animate_timer := 0 } :
          AppState).quaternion_list.getD 2 Quaternion.identity = yaw90 := by
    simp [c1State, startAnimation, initialState]
  rw [hbase, hget]
  exact Quaternion.slerp_zero yaw90 (yaw90 * yaw90) normSq_yaw90

theorem c1_rot180 :
    current_rotation (tick^[180] c1State) = yaw90 * yaw90 := by
  rw [c1_tick180, current_rotation_idle _ rfl]
  simp [c1State, startAnimation, initialState, Quaternion.mul_identity,
    Quaternion.identity_mul]

/-- Claim C1, counterexample: after `start()` and 60 ticks on the sequence
[identity, 90-degree yaw, 90-degree yaw] the displayed rotation is the
identity, not compose(identity, 90-degree yaw): segment 0 animates
identity toward sequence[0]. And after 120 ticks playback is still active,
where the claim requires it to have finished. -/
theorem c1_counterexample :
    current_rotation (tick^[60] c1State) ≠ Quaternion.identity * yaw90 ∧
    (tick^[120] c1State).animating = true := by
  constructor
  · rw [c1_rot60, Quaternion.identity_mul]
    intro heq
    have hweq : (1 : ℝ) = Real.sqrt 2 / 2 := by
      have := congrArg Quaternion.w heq
      rw [yaw90_eq] at this
      exact this
    have h2 : Real.sqrt 2 ^ 2 = 2 := Real.sq_sqrt (by norm_num)
    have hs : Real.sqrt 2 = 2 := by linarith
    rw [hs] at h2
    norm_num at h2
  · rw [c1_tick120]
    rfl

/-- Claim C1, amended: on [identity, 90-degree yaw, 90-degree yaw] each list
element is animated as its own segment from the composed prefix, so after 60
ticks the displayed rotation is the identity (still playing), after 120 ticks
it is compose(identity, 90-degree yaw) (still playing), and only after 180
ticks it is compose(identity, 90-degree yaw, 90-degree yaw) with playback
deactivated. -/
theorem c1_theorem :
    current_rotation (tick^[60] c1State) = Quaternion.identity ∧
    (tick^[60] c1State).animating = true ∧
    current_rotation (tick^[120] c1State) = Quaternion.identity * yaw90 ∧
    (tick^[120] c1State).animating = true ∧
    current_rotation (tick^[180] c1State) =
      Quaternion.identity * yaw90 * yaw90 ∧
    (tick^[180] c1State).animating = false := by
  refine ⟨c1_rot60, ?_, ?_, ?_, ?_, ?_⟩
  · rw [c1_tick60]; rfl
  · rw [c1_rot120, Quaternion.identity_mul]
  · rw [c1_tick120]; rfl
  · rw [c1_rot180, Quaternion.identity_mul]
  · rw [c1_tick180]

/-- Claim C8: every rotation-producing operation keeps the squared norm
within 1e-5 of 1 — in the real-valued model it is exactly 1: construction
from Euler angles, construction from axis-angle with a unit axis,
composition of unit quaternions, and slerp of unit quaternions at any
parameter. -/
theorem c8_theorem :
    (∀ yaw pitch roll : ℝ,
      |Quaternion.normSq (Quaternion.from_euler_angles yaw pitch roll) - 1| ≤
        1 / 100000) ∧
    (∀ x y z angle : ℝ, x ^ 2 + y ^ 2 + z ^ 2 = 1 →
      |Quaternion.normSq (Quaternion.from_axis_angle x y z angle) - 1| ≤
        1 / 100000) ∧
    (∀ a b : Quaternion, Quaternion.normSq a = 1 → Quaternion.normSq b = 1 →
      |Quaternion.normSq (a * b) - 1| ≤ 1 / 100000) ∧
    (∀ (a b : Quaternion) (t : ℝ),
      Quaternion.normSq a = 1 → Quaternion.normSq b = 1 →
      |Quaternion.normSq (Quaternion.slerp a b t) - 1| ≤ 1 / 100000) := by
  have habs : ∀ r : ℝ, r = 1 → |r - 1| ≤ 1 / 100000 := by
    intro r h
    rw [h]
    norm_num
  refine ⟨?_, ?_, ?_, ?_⟩
  · intro yaw pitch roll
    apply habs
    unfold Quaternion.from_euler_angles
    rw [Quaternion.normSq_mul, Quaternion.normSq_mul]
    have h1 : Quaternion.normSq ⟨Real.cos (yaw / 2), 0, Real.sin (yaw / 2), 0⟩
        = 1 := by
      unfold Quaternion.normSq
      dsimp only
      linear_combination Real.sin_sq_add_cos_sq (yaw / 2)
    have h2 : Quaternion.normSq
        ⟨Real.cos (pitch / 2), Real.sin (pitch / 2), 0, 0⟩ = 1 := by
      unfold Quaternion.normSq
      dsimp only
      linear_combination Real.sin_sq_add_cos_sq (pitch / 2)
    have h3 : Quaternion.normSq ⟨Real.cos (roll / 2), 0, 0, Real.sin (roll / 2)⟩
        = 1 := by
      unfold Quaternion.normSq
      dsimp only
      linear_combination Real.sin_sq_add_cos_sq (roll / 2)
    rw [h1, h2, h3]
    norm_num
  · intro x y z angle haxis
    apply habs
    unfold Quaternion.from_axis_angle Quaternion.normSq
    dsimp only
    linear_combination (Real.sin (angle / 2)) ^ 2 * haxis +
      Real.sin_sq_add_cos_sq (angle / 2)
  · intro a b ha hb
    apply habs
    rw [Quaternion.normSq_mul, ha, hb]
    norm_num
  · intro a b t ha hb
    apply habs
    exact Quaternion.slerp_normSq a b t ha hb

/-- Witness for C8 instantiated at zero angles, the unit x-axis, and the
identity rotation. -/
theorem c8_witness :
    |Quaternion.normSq (Quaternion.from_euler_angles 0 0 0) - 1| ≤ 1 / 100000 ∧
    |Quaternion.normSq (Quaternion.from_axis_angle 1 0 0 0) - 1| ≤ 1 / 100000 ∧
    |Quaternion.normSq (Quaternion.identity * Quaternion.identity) - 1| ≤
      1 / 100000 ∧
    |Quaternion.normSq
      (Quaternion.slerp Quaternion.identity Quaternion.identity 0) - 1| ≤
      1 / 100000 :=
  ⟨c8_theorem.1 0 0 0,
   c8_theorem.2.1 1 0 0 0 (by norm_num),
   c8_theorem.2.2.1 Quaternion.identity Quaternion.identity
     Quaternion.normSq_identity Quaternion.normSq_identity,
   c8_theorem.2.2.2 Quaternion.identity Quaternion.identity 0
     Quaternion.normSq_identity Quaternion.normSq_identity⟩

/-- Claim C9: for unit quaternions, slerp at parameter 0 equals the first
endpoint and at parameter 1 equals the second endpoint, each up to an overall
sign flip (at 0 the model even yields `a` exactly; at 1 the sign depends on
the shortest-arc negation). -/
theorem c9_theorem (a b : Quaternion) (ha : Quaternion.normSq a = 1)
    (hb : Quaternion.normSq b = 1) :
    (Quaternion.slerp a b 0 = a ∨ Quaternion.slerp a b 0 = -a) ∧
    (Quaternion.slerp a b 1 = b ∨ Quaternion.slerp a b 1 = -b) := by
  refine ⟨Or.inl (Quaternion.slerp_zero a b ha), ?_⟩
  rw [Quaternion.slerp_one a b hb]
  unfold Quaternion.slerpEnd
  split
  · exact Or.inr rfl
  · exact Or.inl rfl

/-- Witness for C9 at the identity endpoints. -/
theorem c9_witness :
    (Quaternion.slerp Quaternion.identity Quaternion.identity 0 =
        Quaternion.identity ∨
      Quaternion.slerp Quaternion.identity Quaternion.identity 0 =
        -Quaternion.identity) ∧
    (Quaternion.slerp Quaternion.identity Quaternion.identity 1 =
        Quaternion.identity ∨
      Quaternion.slerp Quaternion.identity Quaternion.identity 1 =
        -Quaternion.identity) :=
  c9_theorem Quaternion.identity Quaternion.identity
    Quaternion.normSq_identity Quaternion.normSq_identity

theorem setLast_dropLast (l : List Quaternion) (q : Quaternion) :
    (setLast l q).dropLast = l.dropLast := by
  unfold setLast
  exact List.dropLast_concat

theorem setLast_length (l : List Quaternion) (q : Quaternion) (h : l ≠ []) :
    (setLast l q).length = l.length := by
  unfold setLast
  rw [List.length_append, List.length_dropLast]
  have := List.length_pos.mpr h
  simp
  omega

theorem setLast_getLast (l : List Quaternion) (q : Quaternion) :
    (setLast l q).getLast? = some q := by
  unfold setLast
  exact List.getLast?_concat _

/-- Claim C10: each of the seven rotation sliders only replaces the last
element of the rotation list with the quaternion rebuilt from the updated
slider state; earlier elements, the list length and the playback state are
unchanged. -/
theorem c10_theorem (s : AppState) (v : ℝ) (h : s.quaternion_list ≠ []) :
    replacesLastOnly s (sliderYaw v s)
      (Quaternion.from_euler_angles (toRadians v) s.euler_angles1
        s.euler_angles2) ∧
    replacesLastOnly s (sliderPitch v s)
      (Quaternion.from_euler_angles s.euler_angles0 (toRadians v)
        s.euler_angles2) ∧
    replacesLastOnly s (sliderRoll v s)
      (Quaternion.from_euler_angles s.euler_angles0 s.euler_angles1
        (toRadians v)) ∧
    replacesLastOnly s (sliderAxisX v s)
      (Quaternion.from_axis_angle (normalizedAxis v s.axis1 s.axis2).1
        (normalizedAxis v s.axis1 s.axis2).2.1
        (normalizedAxis v s.axis1 s.axis2).2.2 s.axis_angle) ∧
    replacesLastOnly s (sliderAxisY v s)
      (Quaternion.from_axis_angle (normalizedAxis s.axis0 v s.axis2).1
        (normalizedAxis s.axis0 v s.axis2).2.1
        (normalizedAxis s.axis0 v s.axis2).2.2 s.axis_angle) ∧
    replacesLastOnly s (sliderAxisZ v s)
      (Quaternion.from_axis_angle (normalizedAxis s.axis0 s.axis1 v).1
        (normalizedAxis s.axis0 s.axis1 v).2.1
        (normalizedAxis s.axis0 s.axis1 v).2.2 s.axis_angle) ∧
    replacesLastOnly s (sliderAngle v s)
      (Quaternion.from_axis_angle (normalizedAxis s.axis0 s.axis1 s.axis2).1
        (normalizedAxis s.axis0 s.axis1 s.axis2).2.1
        (normalizedAxis s.axis0 s.axis1 s.axis2).2.2 (toRadians v)) := by
  refine ⟨?_, ?_, ?_, ?_, ?_, ?_, ?_⟩ <;>
    exact ⟨setLast_dropLast _ _, setLast_length _ _ h, setLast_getLast _ _,
      rfl, rfl, rfl⟩

/-- Witness for C10 at the initial state with slider value 0. -/
theorem c10_witness :
    replacesLastOnly initialState (sliderYaw 0 initialState)
      (Quaternion.from_euler_angles (toRadians 0) initialState.euler_angles1
        initialState.euler_angles2) ∧
    replacesLastOnly initialState (sliderPitch 0 initialState)
      (Quaternion.from_euler_angles initialState.euler_angles0 (toRadians 0)
        initialState.euler_angles2) ∧
    replacesLastOnly initialState (sliderRoll 0 initialState)
      (Quaternion.from_euler_angles initialState.euler_angles0
        initialState.euler_angles1 (toRadians 0)) ∧
    replacesLastOnly initialState (sliderAxisX 0 initialState)
      (Quaternion.from_axis_angle
        (normalizedAxis 0 initialState.axis1 initialState.axis2).1
        (normalizedAxis 0 initialState.axis1 initialState.axis2).2.1
        (normalizedAxis 0 initialState.axis1 initialState.axis2).2.2
        initialState.axis_angle) ∧
    replacesLastOnly initialState (sliderAxisY 0 initialState)
      (Quaternion.from_axis_angle
        (normalizedAxis initialState.axis0 0 initialState.axis2).1
        (normalizedAxis initialState.axis0 0 initialState.axis2).2.1
        (normalizedAxis initialState.axis0 0 initialState.axis2).2.2
        initialState.axis_angle) ∧
    replacesLastOnly initialState (sliderAxisZ 0 initialState)
      (Quaternion.from_axis_angle
        (normalizedAxis initialState.axis0 initialState.axis1 0).1
        (normalizedAxis initialState.axis0 initialState.axis1 0).2.1
        (normalizedAxis initialState.axis0 initialState.axis1 0).2.2
        initialState.axis_angle) ∧
    replacesLastOnly initialState (sliderAngle 0 initialState)
      (Quaternion.from_axis_angle
        (normalizedAxis initialState.axis0 initialState.axis1
          initialState.axis2).1
        (normalizedAxis initialState.axis0 initialState.axis1
          initialState.axis2).2.1
        (normalizedAxis initialState.axis0 initialState.axis1
          initialState.axis2).2.2 (toRadians 0)) :=
  c10_theorem initialState 0 (by simp [initialState])

end QDemo
